import Mathlib

/-!
Verification of the VOC dataset-loading adapters (`src/data/voc.py` and
`src/voc.py`).  The two Python files are embedded shallowly: XML annotation
trees become a rose tree `XmlNode`, torch tensors become a `shape`+`data`
record over `ℚ`, PIL images become a width/height pair, fallible Python code
(KeyError, ValueError, TypeError, torch stacking errors, ...) returns
`Except String`.  Machine floats are modelled by exact rationals; all the
divisions appearing in the claims are exact in both models.
-/

mutual
/-- An XML element: tag, text content, ordered children.  The forest of
children is a separate mutual inductive so that recursion over the tree is
structural and reduces definitionally. -/
inductive XmlNode where
  | mk (tag : String) (txt : String) (children : XmlForest)
inductive XmlForest where
  | fnil
  | fcons (hd : XmlNode) (tl : XmlForest)
end

def XmlNode.tag : XmlNode → String
  | .mk t _ _ => t

def XmlNode.txt : XmlNode → String
  | .mk _ s _ => s

def XmlNode.children : XmlNode → XmlForest
  | .mk _ _ c => c

mutual
/-- Mirror of `ElementTree.Element.iter(tag)`: document-order traversal of the
element and all its descendants, keeping the elements with the given tag. -/
def XmlNode.iterTag (t : String) : XmlNode → List XmlNode
  | .mk tag txt ch =>
    (if tag == t then [XmlNode.mk tag txt ch] else []) ++ XmlForest.iterTag t ch
def XmlForest.iterTag (t : String) : XmlForest → List XmlNode
  | .fnil => []
  | .fcons x xs => XmlNode.iterTag t x ++ XmlForest.iterTag t xs
end

/-- Mirror of `Element.find(tag)`: first direct child carrying the tag. -/
def XmlForest.findTag (t : String) : XmlForest → Option XmlNode
  | .fnil => none
  | .fcons x xs => if x.tag == t then some x else XmlForest.findTag t xs

/-- Mirror of positional child access `element[i]`. -/
def XmlForest.get? : XmlForest → Nat → Option XmlNode
  | .fnil, _ => none
  | .fcons x _, 0 => some x
  | .fcons _ xs, n + 1 => XmlForest.get? xs n

def XmlNode.find (x : XmlNode) (t : String) : Option XmlNode :=
  XmlForest.findTag t x.children

/-- The children of an element as a list (the order of `for bb in bbox`). -/
def XmlForest.toList : XmlForest → List XmlNode
  | .fnil => []
  | .fcons x xs => x :: XmlForest.toList xs

/-- Convenience constructor for a childless element. -/
def xleaf (tag txt : String) : XmlNode := .mk tag txt .fnil

/-- Convenience constructor for a forest from a list. -/
def xf (l : List XmlNode) : XmlForest := l.foldr .fcons .fnil

/-- A torch tensor, shallowly: its shape and its (flattened) numeric data. -/
structure Tensor where
  shape : List Nat
  data : List ℚ
deriving DecidableEq

/-- A value that may sit in the image slot of a sample: either a raw PIL
image (whose `size` attribute is the pair width × height) or a torch tensor
(whose `size()` method returns the shape). -/
inductive Img where
  | pil (w h : Nat)
  | tens (t : Tensor)
deriving DecidableEq

/-- Mirror of `tensor.squeeze_(0)`: drop a leading axis of size 1. -/
def squeeze0 (t : Tensor) : Tensor :=
  match t.shape with
  | 1 :: rest => ⟨rest, t.data⟩
  | _ => t

/-- Mirror of the Python expression `img.size()`.  On a tensor this is the
`size()` method returning the shape; on a PIL image `size` is a plain tuple
attribute, so calling it raises a TypeError. -/
def imgSizeCall : Img → Except String (List Nat)
  | .pil _ _ => .error "TypeError: tuple object is not callable"
  | .tens t => .ok t.shape

/-- Mirror of `torch.Tensor(a)` for a flat numeric record `a`. -/
def torchTensorOf (a : List ℚ) : Tensor := ⟨[a.length], a⟩

/-- Mirror of `torch.stack(ts, 0)`: fails on an empty list, fails when the
shapes disagree, otherwise prepends a new leading axis. -/
def torchStack (ts : List Tensor) : Except String Tensor :=
  match ts with
  | [] => .error "stack expects a non-empty TensorList"
  | t :: rest =>
    if rest.all (fun u => u.shape == t.shape) then
      .ok ⟨ts.length :: t.shape, (ts.map Tensor.data).flatten⟩
    else
      .error "stack expects each tensor to be equal size"

/-- Mirror of `readlines()` on a text file: split into lines, each keeping
its terminating newline; a final chunk without a newline is also a line. -/
def readlinesAux : List Char → List Char → List String
  | acc, [] => if acc.isEmpty then [] else [String.mk acc.reverse]
  | acc, c :: rest =>
    if c == '\n' then String.mk (acc.reverse ++ ['\n']) :: readlinesAux [] rest
    else readlinesAux (c :: acc) rest

def readlines (s : String) : List String := readlinesAux [] s.data

/-- Mirror of Python `str.strip('\n')`: remove newline characters from both
ends of the string. -/
def stripNewlines (s : String) : String :=
  String.mk (((s.data.dropWhile (fun c => c == '\n')).reverse.dropWhile
    (fun c => c == '\n')).reverse)

/-- Mirror of `template % value` for the single-slot `%s` path templates. -/
def formatSub (t s : String) : String := t.replace "%s" s

/-- Mirror of `os.path.join` as used on the fixed path templates. -/
def joinPath (ps : List String) : String := String.intercalate "/" ps

/-- Python whitespace, as stripped by `str.strip()` and `int()`. -/
def isPySpace (c : Char) : Bool :=
  c == ' ' || c == '\t' || c == '\n' || c == '\r' || c == '\x0b' || c == '\x0c'

def digitsNatAux : Nat → List Char → Option Nat
  | acc, [] => some acc
  | acc, c :: rest =>
    if c.isDigit then digitsNatAux (acc * 10 + (c.toNat - 48)) rest else none

def digitsNat : List Char → Option Nat
  | [] => none
  | l => digitsNatAux 0 l

/-- Mirror of Python `int(text)` on decimal text: optional surrounding
whitespace, optional sign, a nonempty digit run; anything else raises
ValueError (modelled as `none`). -/
def pyToInt? (s : String) : Option Int :=
  let t := ((s.data.dropWhile isPySpace).reverse.dropWhile isPySpace).reverse
  match t with
  | '-' :: ds => (digitsNat ds).map (fun n => -(n : Int))
  | '+' :: ds => (digitsNat ds).map (fun n => (n : Int))
  | ds => (digitsNat ds).map (fun n => (n : Int))

def pyCharLower (c : Char) : Char :=
  if 65 ≤ c.toNat && c.toNat ≤ 90 then Char.ofNat (c.toNat + 32) else c

/-- Mirror of Python `str.lower()` on ASCII text. -/
def pyLower (s : String) : String := String.mk (s.data.map pyCharLower)

/-- Mirror of Python `str.strip()`: drop whitespace from both ends. -/
def pyStrip (s : String) : String :=
  String.mk (((s.data.dropWhile isPySpace).reverse.dropWhile isPySpace).reverse)

namespace DataVoc

/-- The 20-name class tuple of `src/data/voc.py`. -/
def VOC_CLASSES : List String :=
  ["aeroplane", "bicycle", "bird", "boat",
   "bottle", "bus", "car", "cat", "chair",
   "cow", "diningtable", "dog", "horse",
   "motorbike", "person", "pottedplant",
   "sheep", "sofa", "train", "tvmonitor"]

/-- Mirror of `dict(zip(VOC_CLASSES, range(len(VOC_CLASSES))))`. -/
def defaultClassToIndex : List (String × Nat) :=
  VOC_CLASSES.zip (List.range VOC_CLASSES.length)

/-- State of `data/voc.py`'s `AnnotationTransform` object. -/
structure AnnotationTransform where
  class_to_index : List (String × Nat)
  keep_difficult : Bool

/-- Mirror of `AnnotationTransform.__init__`. -/
def AnnotationTransform.init (class_to_index : Option (List (String × Nat)))
    (keep_difficult : Bool) : AnnotationTransform :=
  ⟨class_to_index.getD defaultClassToIndex, keep_difficult⟩

/-- The `for i,bb in enumerate(bbox)` loop of `data/voc.py`: position `i`
even divides `int(text)-1` by `W`, odd divides by `H` (Python 3 true
division; a zero divisor raises ZeroDivisionError). -/
def bndLoop (H W : Nat) : Nat → XmlForest → Except String (List ℚ)
  | _, .fnil => .ok []
  | i, .fcons bb rest =>
    match pyToInt? bb.txt with
    | none => .error "ValueError"
    | some n =>
      if i % 2 == 0 then
        if W == 0 then .error "ZeroDivisionError"
        else (bndLoop H W (i + 1) rest).map (fun l => ((n : ℚ) - 1) / (W : ℚ) :: l)
      else
        if H == 0 then .error "ZeroDivisionError"
        else (bndLoop H W (i + 1) rest).map (fun l => ((n : ℚ) - 1) / (H : ℚ) :: l)

/-- Body of the per-object iteration of `data/voc.py`'s
`AnnotationTransform.__call__`. -/
def objStep (class_to_index : List (String × Nat)) (keep_difficult : Bool)
    (H W : Nat) (res : List (List ℚ)) (obj : XmlNode) :
    Except String (List (List ℚ)) :=
  match obj.find "difficult" with
  | none => .error "AttributeError"
  | some d =>
    match pyToInt? d.txt with
    | none => .error "ValueError"
    | some di =>
      if !keep_difficult && (di == 1) then .ok res
      else
        match obj.find "name" with
        | none => .error "AttributeError"
        | some nm =>
          match obj.find "bndbox" with
          | none => .error "AttributeError"
          | some bbox =>
            match bndLoop H W 0 bbox.children with
            | .error e => .error e
            | .ok bnd =>
              match class_to_index.lookup (pyStrip (pyLower nm.txt)) with
              | none => .error "KeyError"
              | some label => .ok (res ++ [bnd ++ [(label : ℚ)]])

/-- Mirror of `data/voc.py` `AnnotationTransform.__call__(target, C, H, W)`. -/
def AnnotationTransform.call (self : AnnotationTransform) (target : XmlNode)
    (_C H W : Nat) : Except String (List (List ℚ)) :=
  (XmlNode.iterTag "object" target).foldlM
    (objStep self.class_to_index self.keep_difficult H W) []

/-- The target component returned by `data/voc.py`'s
`VOCDetection.__getitem__`: either the raw parsed XML root (no target
transform) or the numeric record list produced by the target transform. -/
inductive TargetOut where
  | raw (x : XmlNode)
  | parsed (l : List (List ℚ))

/-- State of `data/voc.py`'s `VOCDetection` object after construction. -/
structure VOCDetection where
  root : String
  image_set : String
  transform : Option ((Nat × Nat) → Tensor)
  target_transform : Option (XmlNode → Nat → Nat → Nat → Except String (List (List ℚ)))
  annopath : String
  imgpath : String
  imgsetpath : String
  ids : List String

/-- Mirror of `data/voc.py` `VOCDetection.__init__`: build the three path
templates and read the manifest (`readFile` abstracts the file system). -/
def VOCDetection.init (root image_set : String)
    (transform : Option ((Nat × Nat) → Tensor))
    (target_transform : Option (XmlNode → Nat → Nat → Nat → Except String (List (List ℚ))))
    (dataset_name : String) (readFile : String → String) : VOCDetection :=
  let annopath := joinPath [root, dataset_name, "Annotations", "%s.xml"]
  let imgpath := joinPath [root, dataset_name, "JPEGImages", "%s.jpg"]
  let imgsetpath := joinPath [root, dataset_name, "ImageSets", "Main", "%s.txt"]
  { root := root, image_set := image_set, transform := transform,
    target_transform := target_transform,
    annopath := annopath, imgpath := imgpath, imgsetpath := imgsetpath,
    ids := (readlines (readFile (formatSub imgsetpath image_set))).map stripNewlines }

/-- Mirror of `data/voc.py` `VOCDetection.__len__`. -/
def VOCDetection.len (s : VOCDetection) : Nat := s.ids.length

/-- Mirror of `data/voc.py` `VOCDetection.__getitem__`.  `annoFileOf` and
`imgFileOf` abstract the file system: the parsed XML root at a path, and the
width/height of the JPEG at a path. -/
def VOCDetection.getitem (s : VOCDetection) (annoFileOf : String → XmlNode)
    (imgFileOf : String → Nat × Nat) (index : Nat) :
    Except String (Img × TargetOut) :=
  match s.ids.get? index with
  | none => .error "IndexError"
  | some img_id =>
    let target := annoFileOf (formatSub s.annopath img_id)
    let pimg := imgFileOf (formatSub s.imgpath img_id)
    let img : Img :=
      match s.transform with
      | some f => .tens (squeeze0 (f pimg))
      | none => .pil pimg.1 pimg.2
    match s.target_transform with
    | none => .ok (img, .raw target)
    | some f =>
      match imgSizeCall img with
      | .error e => .error e
      | .ok sz =>
        match sz with
        | [c, h, w] =>
          match f target c h w with
          | .error e => .error e
          | .ok l => .ok (img, .parsed l)
        | _ => .error "TypeError: argument count mismatch"

/-- State-threading form of `__getitem__`: the method assigns no attribute
of `self`, so the embedding returns the state it was given. -/
def VOCDetection.getitemS (s : VOCDetection) (annoFileOf : String → XmlNode)
    (imgFileOf : String → Nat × Nat) (index : Nat) :
    VOCDetection × Except String (Img × TargetOut) :=
  (s, s.getitem annoFileOf imgFileOf index)

/-- One element of a sample tuple seen by `detection_collate`: a tensor, a
plain list of numeric records, or anything else (which the collator's
type-dispatch silently ignores). -/
inductive Item where
  | tens (t : Tensor)
  | annos (l : List (List ℚ))
  | other

/-- Body of the inner loop of `detection_collate`: tensors go to the image
accumulator; lists are stacked (`torch.stack` of one `torch.Tensor` per
record) and go to the target accumulator; anything else is skipped. -/
def collateStep (acc : List Tensor × List Tensor) (tup : Item) :
    Except String (List Tensor × List Tensor) :=
  match tup with
  | .tens t => .ok (acc.1 ++ [t], acc.2)
  | .annos l =>
    match torchStack (l.map torchTensorOf) with
    | .error e => .error e
    | .ok st => .ok (acc.1, acc.2 ++ [st])
  | .other => .ok acc

/-- Mirror of `data/voc.py` `detection_collate`. -/
def detection_collate (batch : List (List Item)) :
    Except String (Tensor × List Tensor) :=
  match batch.foldlM (fun acc sample => sample.foldlM collateStep acc) ([], []) with
  | .error e => .error e
  | .ok acc =>
    match torchStack acc.1 with
    | .error e => .error e
    | .ok imgs => .ok (imgs, acc.2)

end DataVoc

namespace VocPy

/-- The 21-name class tuple of `src/voc.py`, with a background entry at
index 0. -/
def VOC_CLASSES : List String :=
  ["__background__",
   "aeroplane", "bicycle", "bird", "boat",
   "bottle", "bus", "car", "cat", "chair",
   "cow", "diningtable", "dog", "horse",
   "motorbike", "person", "pottedplant",
   "sheep", "sofa", "train", "tvmonitor"]

/-- Mirror of `dict(zip(VOC_CLASSES, range(len(VOC_CLASSES))))`. -/
def defaultClassToInd : List (String × Nat) :=
  VOC_CLASSES.zip (List.range VOC_CLASSES.length)

/-- One slot of the heterogeneous record `[xmin, ymin, xmax, ymax, name]`
emitted by `src/voc.py`'s parser: an integer or a string. -/
inductive Cell where
  | num (n : Int)
  | str (s : String)
deriving DecidableEq

/-- State of `src/voc.py`'s `AnnotationTransform` object. -/
structure AnnotationTransform where
  class_to_ind : List (String × Nat)
  keep_difficult : Bool

/-- Mirror of `src/voc.py` `AnnotationTransform.__init__`. -/
def AnnotationTransform.init (class_to_ind : Option (List (String × Nat)))
    (keep_difficult : Bool) : AnnotationTransform :=
  ⟨class_to_ind.getD defaultClassToInd, keep_difficult⟩

/-- The `[int(bb.text) - 1 for bb in bbox]` comprehension of `src/voc.py`. -/
def bndLoop : XmlForest → Except String (List Int)
  | .fnil => .ok []
  | .fcons bb rest =>
    match pyToInt? bb.txt with
    | none => .error "ValueError"
    | some n => (bndLoop rest).map (fun l => (n - 1) :: l)

/-- Body of the per-object iteration of `src/voc.py`'s
`AnnotationTransform.__call__`: the class name is read from the child at
position 0, the bounding box from the child at position 4, and the record
ends with the name string. -/
def objStep (keep_difficult : Bool) (res : List (List Cell)) (obj : XmlNode) :
    Except String (List (List Cell)) :=
  match obj.find "difficult" with
  | none => .error "AttributeError"
  | some d =>
    match pyToInt? d.txt with
    | none => .error "ValueError"
    | some di =>
      if !keep_difficult && (di == 1) then .ok res
      else
        match obj.children.get? 0 with
        | none => .error "IndexError"
        | some c0 =>
          match obj.children.get? 4 with
          | none => .error "IndexError"
          | some bbox =>
            match bndLoop bbox.children with
            | .error e => .error e
            | .ok bnd =>
              .ok (res ++ [bnd.map Cell.num ++ [Cell.str (pyStrip (pyLower c0.txt))]])

/-- Mirror of `src/voc.py` `AnnotationTransform.__call__(target)`.  The
`class_to_ind` field of the transform is stored but, exactly as in the
source, never read here. -/
def AnnotationTransform.call (self : AnnotationTransform) (target : XmlNode) :
    Except String (List (List Cell)) :=
  (XmlNode.iterTag "object" target).foldlM (objStep self.keep_difficult) []

/-- The target component returned by `src/voc.py`'s
`VOCDetection.__getitem__`. -/
inductive TargetOut where
  | raw (x : XmlNode)
  | parsed (l : List (List Cell))

/-- State of `src/voc.py`'s `VOCDetection` object after construction. -/
structure VOCDetection where
  root : String
  image_set : String
  transform : Option ((Nat × Nat) → Img)
  target_transform : Option (XmlNode → Except String (List (List Cell)))
  annopath : String
  imgpath : String
  imgsetpath : String
  ids : List String

/-- Mirror of `src/voc.py` `VOCDetection.__init__`. -/
def VOCDetection.init (root image_set : String)
    (transform : Option ((Nat × Nat) → Img))
    (target_transform : Option (XmlNode → Except String (List (List Cell))))
    (dataset_name : String) (readFile : String → String) : VOCDetection :=
  let annopath := joinPath [root, dataset_name, "Annotations", "%s.xml"]
  let imgpath := joinPath [root, dataset_name, "JPEGImages", "%s.jpg"]
  let imgsetpath := joinPath [root, dataset_name, "ImageSets", "Main", "%s.txt"]
  { root := root, image_set := image_set, transform := transform,
    target_transform := target_transform,
    annopath := annopath, imgpath := imgpath, imgsetpath := imgsetpath,
    ids := (readlines (readFile (formatSub imgsetpath image_set))).map stripNewlines }

/-- Mirror of `src/voc.py` `VOCDetection.__len__`. -/
def VOCDetection.len (s : VOCDetection) : Nat := s.ids.length

/-- Mirror of `src/voc.py` `VOCDetection.__getitem__`: unlike the
`data/voc.py` variant, the target transform is applied to the raw tree alone
and the transformed image is not squeezed. -/
def VOCDetection.getitem (s : VOCDetection) (annoFileOf : String → XmlNode)
    (imgFileOf : String → Nat × Nat) (index : Nat) :
    Except String (Img × TargetOut) :=
  match s.ids.get? index with
  | none => .error "IndexError"
  | some img_id =>
    let target := annoFileOf (formatSub s.annopath img_id)
    let pimg := imgFileOf (formatSub s.imgpath img_id)
    let img : Img :=
      match s.transform with
      | some f => f pimg
      | none => .pil pimg.1 pimg.2
    match s.target_transform with
    | none => .ok (img, .raw target)
    | some f =>
      match f target with
      | .error e => .error e
      | .ok l => .ok (img, .parsed l)

/-- State-threading form of `__getitem__`: the method assigns no attribute
of `self`, so the embedding returns the state it was given. -/
def VOCDetection.getitemS (s : VOCDetection) (annoFileOf : String → XmlNode)
    (imgFileOf : String → Nat × Nat) (index : Nat) :
    VOCDetection × Except String (Img × TargetOut) :=
  (s, s.getitem annoFileOf imgFileOf index)

end VocPy

/-- The annotation XML object of the end-to-end scenario: one non-difficult
"cat" object with bndbox (10, 20, 110, 220) and no parts. -/
def catObj : XmlNode :=
  .mk "object" "" (xf
    [xleaf "name" "cat", xleaf "pose" "Left", xleaf "truncated" "0",
     xleaf "difficult" "0",
     .mk "bndbox" "" (xf
       [xleaf "xmin" "10", xleaf "ymin" "20", xleaf "xmax" "110", xleaf "ymax" "220"])])

/-- The annotation XML root of the end-to-end scenario. -/
def catXml : XmlNode := .mk "annotation" "" (xf [catObj])

/-- An annotation object whose class name is absent from every default
vocabulary. -/
def zebraObj : XmlNode :=
  .mk "object" "" (xf
    [xleaf "name" "zebra", xleaf "pose" "Left", xleaf "truncated" "0",
     xleaf "difficult" "0",
     .mk "bndbox" "" (xf
       [xleaf "xmin" "10", xleaf "ymin" "20", xleaf "xmax" "110", xleaf "ymax" "220"])])

/-- Annotation root containing only the unknown-class object. -/
def zebraXml : XmlNode := .mk "annotation" "" (xf [zebraObj])

/-- An annotation object marked difficult. -/
def diffObj : XmlNode :=
  .mk "object" "" (xf
    [xleaf "name" "dog", xleaf "pose" "Left", xleaf "truncated" "0",
     xleaf "difficult" "1",
     .mk "bndbox" "" (xf
       [xleaf "xmin" "10", xleaf "ymin" "20", xleaf "xmax" "110", xleaf "ymax" "220"])])

/-- Annotation root whose objects are all difficult. -/
def diffXml : XmlNode := .mk "annotation" "" (xf [diffObj])

/-- Folding an `Except`-valued step over an appended list splits into the
fold of the first part bound to the fold of the second. -/
theorem foldlM_append_except {α β : Type} (f : β → α → Except String β)
    (b : β) (xs ys : List α) :
    (xs ++ ys).foldlM f b = (xs.foldlM f b).bind fun c => ys.foldlM f c := by
  induction xs generalizing b with
  | nil => rfl
  | cons a l ih =>
    simp only [List.cons_append, List.foldlM_cons]
    cases h : f b a with
    | error e => simp [Except.bind, Bind.bind]
    | ok c => simp [Except.bind, Bind.bind, ih]

/-- The difficult-flag test both parsers perform on an object node:
`int(obj.find('difficult').text) == 1`, with a missing node or unparsable
text counting as not difficult (those raise instead of skipping). -/
def isDifficultOne (o : XmlNode) : Bool :=
  match o.find "difficult" with
  | none => false
  | some d =>
    match pyToInt? d.txt with
    | none => false
    | some di => di == 1

/-- With `keep_difficult = false`, the `data/voc.py` per-object step skips a
difficult object, emitting nothing. -/
theorem dataObjStep_skip (m : List (String × Nat)) (H W : Nat)
    (res : List (List ℚ)) (o : XmlNode) (h : isDifficultOne o = true) :
    DataVoc.objStep m false H W res o = .ok res := by
  cases hf : o.find "difficult" with
  | none => simp [isDifficultOne, hf] at h
  | some d =>
    cases hp : pyToInt? d.txt with
    | none => simp [isDifficultOne, hf, hp] at h
    | some di =>
      have hd : (di == 1) = true := by simpa [isDifficultOne, hf, hp] using h
      simp [DataVoc.objStep, hf, hp, hd]

/-- With `keep_difficult = false`, the `src/voc.py` per-object step skips a
difficult object, emitting nothing. -/
theorem vocObjStep_skip (res : List (List VocPy.Cell)) (o : XmlNode)
    (h : isDifficultOne o = true) :
    VocPy.objStep false res o = .ok res := by
  cases hf : o.find "difficult" with
  | none => simp [isDifficultOne, hf] at h
  | some d =>
    cases hp : pyToInt? d.txt with
    | none => simp [isDifficultOne, hf, hp] at h
    | some di =>
      have hd : (di == 1) = true := by simpa [isDifficultOne, hf, hp] using h
      simp [VocPy.objStep, hf, hp, hd]

theorem dataFold_all_difficult (m : List (String × Nat)) (H W : Nat)
    (l : List XmlNode) (res : List (List ℚ))
    (h : ∀ o ∈ l, isDifficultOne o = true) :
    l.foldlM (DataVoc.objStep m false H W) res = .ok res := by
  induction l generalizing res with
  | nil => rfl
  | cons a tl ih =>
    rw [List.foldlM_cons, dataObjStep_skip m H W res a (h a (by simp))]
    exact ih res (fun o ho => h o (by simp [ho]))

theorem vocFold_all_difficult (l : List XmlNode) (res : List (List VocPy.Cell))
    (h : ∀ o ∈ l, isDifficultOne o = true) :
    l.foldlM (VocPy.objStep false) res = .ok res := by
  induction l generalizing res with
  | nil => rfl
  | cons a tl ih =>
    rw [List.foldlM_cons, vocObjStep_skip res a (h a (by simp))]
    exact ih res (fun o ho => h o (by simp [ho]))

/-- Claim C5: for every annotation tree whose object nodes are all marked
difficult, both variants of `AnnotationTransform.__call__` with
`keep_difficult = false` return the empty record list and raise no error. -/
theorem difficult_objects_all_skipped (m : List (String × Nat))
    (c H W : Nat) (t : XmlNode)
    (h : ∀ o ∈ XmlNode.iterTag "object" t, isDifficultOne o = true) :
    (DataVoc.AnnotationTransform.mk m false).call t c H W = .ok [] ∧
    (VocPy.AnnotationTransform.mk m false).call t = .ok [] :=
  ⟨dataFold_all_difficult m H W _ [] h, vocFold_all_difficult _ [] h⟩

/-- Witness for C5 at a concrete all-difficult annotation tree. -/
theorem difficult_objects_all_skipped_witness :
    (DataVoc.AnnotationTransform.mk DataVoc.defaultClassToIndex false).call
        diffXml 3 300 200 = .ok [] ∧
    (VocPy.AnnotationTransform.mk DataVoc.defaultClassToIndex false).call
        diffXml = .ok [] :=
  difficult_objects_all_skipped DataVoc.defaultClassToIndex 3 300 200 diffXml
    (by decide)

/-- The spec's description of the normalizing coordinate conversion, for the
refinement statement of C4: subtract 1, then divide even positions by the
width and odd positions by the height. -/
def specNormCoords (H W : Nat) : Nat → List Int → List ℚ
  | _, [] => []
  | i, v :: vs =>
    (if i % 2 == 0 then ((v : ℚ) - 1) / (W : ℚ) else ((v : ℚ) - 1) / (H : ℚ)) ::
      specNormCoords H W (i + 1) vs

theorem dataBndLoop_spec (H W : Nat) (hW : W ≠ 0) (hH : H ≠ 0) :
    ∀ (i : Nat) (ch : XmlForest) (vs : List Int),
      ch.toList.map (fun c => pyToInt? c.txt) = vs.map some →
      DataVoc.bndLoop H W i ch = .ok (specNormCoords H W i vs) := by
  intro i ch vs
  induction vs generalizing i ch with
  | nil =>
    intro hp
    cases ch with
    | fnil => rfl
    | fcons bb rest => simp [XmlForest.toList] at hp
  | cons v vs ih =>
    intro hp
    cases ch with
    | fnil => simp [XmlForest.toList] at hp
    | fcons bb rest =>
      simp only [XmlForest.toList, List.map_cons, List.cons.injEq] at hp
      have hW' : (W == 0) = false := by simpa using hW
      have hH' : (H == 0) = false := by simpa using hH
      by_cases hpar : (i % 2 == 0) = true
      · simp [DataVoc.bndLoop, hp.1, hpar, hW', ih (i + 1) rest hp.2,
          specNormCoords, Except.map]
      · simp only [Bool.not_eq_true] at hpar
        simp [DataVoc.bndLoop, hp.1, hpar, hH', ih (i + 1) rest hp.2,
          specNormCoords, Except.map]

theorem vocBndLoop_spec :
    ∀ (ch : XmlForest) (vs : List Int),
      ch.toList.map (fun c => pyToInt? c.txt) = vs.map some →
      VocPy.bndLoop ch = .ok (vs.map (fun v => v - 1)) := by
  intro ch vs
  induction vs generalizing ch with
  | nil =>
    intro hp
    cases ch with
    | fnil => rfl
    | fcons bb rest => simp [XmlForest.toList] at hp
  | cons v vs ih =>
    intro hp
    cases ch with
    | fnil => simp [XmlForest.toList] at hp
    | fcons bb rest =>
      simp only [XmlForest.toList, List.map_cons, List.cons.injEq] at hp
      simp [VocPy.bndLoop, hp.1, ih rest hp.2, Except.map]

/-- Claim C4: the coordinate conversion subtracts 1 from every parsed
coordinate; the normalizing variant (`data/voc.py`) additionally divides
even positions by the image width `W` and odd positions by the height `H`;
a coordinate with text value 1 parses to 0 in both variants; and xmin=101 on
a width-200 image parses to 1/2 in the normalizing variant. -/
theorem coordinate_conversion :
    (∀ (H W i : Nat) (ch : XmlForest) (vs : List Int), W ≠ 0 → H ≠ 0 →
        ch.toList.map (fun c => pyToInt? c.txt) = vs.map some →
        DataVoc.bndLoop H W i ch = .ok (specNormCoords H W i vs)) ∧
    (∀ (ch : XmlForest) (vs : List Int),
        ch.toList.map (fun c => pyToInt? c.txt) = vs.map some →
        VocPy.bndLoop ch = .ok (vs.map (fun v => v - 1))) ∧
    (∀ (H W i : Nat) (s : String), W ≠ 0 → H ≠ 0 →
        DataVoc.bndLoop H W i (xf [xleaf s "1"]) = .ok [0] ∧
        VocPy.bndLoop (xf [xleaf s "1"]) = .ok [0]) ∧
    DataVoc.bndLoop 300 200 0 (xf [xleaf "xmin" "101", xleaf "ymin" "20",
        xleaf "xmax" "110", xleaf "ymax" "220"]) =
      .ok [1/2, 19/300, 109/200, 219/300] := by
  refine ⟨fun H W i ch vs hW hH hp => dataBndLoop_spec H W hW hH i ch vs hp,
    vocBndLoop_spec, fun H W i s hW hH => ?_, ?_⟩
  · constructor
    · rw [dataBndLoop_spec H W hW hH i (xf [xleaf s "1"]) [1] rfl]
      by_cases hpar : (i % 2 == 0) = true <;> simp [specNormCoords, hpar]
    · rw [vocBndLoop_spec (xf [xleaf s "1"]) [1] rfl]
      norm_num
  · rw [show DataVoc.bndLoop 300 200 0 (xf [xleaf "xmin" "101",
        xleaf "ymin" "20", xleaf "xmax" "110", xleaf "ymax" "220"]) =
        Except.ok [(((101 : Int) : ℚ) - 1) / ((200 : Nat) : ℚ),
          (((20 : Int) : ℚ) - 1) / ((300 : Nat) : ℚ),
          (((110 : Int) : ℚ) - 1) / ((200 : Nat) : ℚ),
          (((220 : Int) : ℚ) - 1) / ((300 : Nat) : ℚ)] from rfl]
    norm_num

/-- Witness for C4 at concrete inputs: the box (10, 20, 110, 220) on a
300 × 200 image, and a single coordinate with text "1". -/
theorem coordinate_conversion_witness :
    DataVoc.bndLoop 300 200 0 (xf [xleaf "xmin" "10", xleaf "ymin" "20",
        xleaf "xmax" "110", xleaf "ymax" "220"]) =
      .ok (specNormCoords 300 200 0 [10, 20, 110, 220]) ∧
    VocPy.bndLoop (xf [xleaf "xmin" "10", xleaf "ymin" "20",
        xleaf "xmax" "110", xleaf "ymax" "220"]) =
      .ok ([10, 20, 110, 220].map (fun v => v - 1)) ∧
    VocPy.bndLoop (xf [xleaf "xmin" "1"]) = .ok [0] := by
  refine ⟨coordinate_conversion.1 300 200 0 _ [10, 20, 110, 220]
      (by decide) (by decide) (by decide), ?_, ?_⟩
  · exact coordinate_conversion.2.1 _ [10, 20, 110, 220] (by decide)
  · exact (coordinate_conversion.2.2.1 300 200 0 "xmin"
      (by decide) (by decide)).2

/-- When a kept, well-formed object has a class name absent from the
mapping, the `data/voc.py` per-object step fails with KeyError. -/
theorem dataObjStep_keyerror (m : List (String × Nat)) (H W : Nat)
    (res : List (List ℚ)) (o d nm bbox : XmlNode) (di : Int) (bnd : List ℚ)
    (hf : o.find "difficult" = some d)
    (hp : pyToInt? d.txt = some di)
    (hkept : (di == 1) = false)
    (hn : o.find "name" = some nm)
    (hb : o.find "bndbox" = some bbox)
    (hbl : DataVoc.bndLoop H W 0 bbox.children = .ok bnd)
    (hlk : m.lookup (pyStrip (pyLower nm.txt)) = none) :
    DataVoc.objStep m false H W res o = .error "KeyError" := by
  simp [DataVoc.objStep, hf, hp, hkept, hn, hb, hbl, hlk]

/-- Claim C3 (amended): in the `data/voc.py` variant, when the object
iteration reaches a kept, well-formed object whose lowercased trimmed class
name is absent from the class-to-index mapping, `AnnotationTransform.__call__`
fails with a KeyError-class error and emits no record for the object.  (In
the `src/voc.py` variant the mapping is never consulted; see the
counterexample.) -/
theorem unknown_class_keyerror (m : List (String × Nat)) (c H W : Nat)
    (t : XmlNode) (pre post : List XmlNode) (res₀ : List (List ℚ))
    (o d nm bbox : XmlNode) (di : Int) (bnd : List ℚ)
    (hiter : XmlNode.iterTag "object" t = pre ++ o :: post)
    (hpre : pre.foldlM (DataVoc.objStep m false H W) [] = .ok res₀)
    (hf : o.find "difficult" = some d)
    (hp : pyToInt? d.txt = some di)
    (hkept : (di == 1) = false)
    (hn : o.find "name" = some nm)
    (hb : o.find "bndbox" = some bbox)
    (hbl : DataVoc.bndLoop H W 0 bbox.children = .ok bnd)
    (hlk : m.lookup (pyStrip (pyLower nm.txt)) = none) :
    (DataVoc.AnnotationTransform.mk m false).call t c H W =
      .error "KeyError" := by
  have hstep := dataObjStep_keyerror m H W res₀ o d nm bbox di bnd
    hf hp hkept hn hb hbl hlk
  simp only [DataVoc.AnnotationTransform.call]
  rw [hiter, foldlM_append_except _ _ pre (o :: post), hpre]
  simp [Except.bind, Bind.bind, List.foldlM_cons, hstep]

/-- Counterexample to C3 as stated: the `src/voc.py` parser, although its
class-to-index mapping does not contain "zebra", raises nothing and emits a
record for the zebra object (carrying the raw name), so the claim's "never
emits a record for it" fails for that variant. -/
theorem unknown_class_keyerror_counterexample :
    (VocPy.AnnotationTransform.init none false).call zebraXml =
      .ok [[.num 9, .num 19, .num 109, .num 219, .str "zebra"]] ∧
    ((VocPy.AnnotationTransform.init none false).class_to_ind).lookup
      "zebra" = none :=
  ⟨rfl, rfl⟩

/-- Witness for C3's amended theorem at the concrete zebra annotation. -/
theorem unknown_class_keyerror_witness :
    (DataVoc.AnnotationTransform.mk DataVoc.defaultClassToIndex false).call
      zebraXml 3 300 200 = .error "KeyError" :=
  unknown_class_keyerror DataVoc.defaultClassToIndex 3 300 200 zebraXml
    [] [] [] zebraObj (xleaf "difficult" "0") (xleaf "name" "zebra")
    (XmlNode.mk "bndbox" "" (xf [xleaf "xmin" "10", xleaf "ymin" "20",
      xleaf "xmax" "110", xleaf "ymax" "220"])) 0
    [(((10 : Int) : ℚ) - 1) / ((200 : Nat) : ℚ),
     (((20 : Int) : ℚ) - 1) / ((300 : Nat) : ℚ),
     (((110 : Int) : ℚ) - 1) / ((200 : Nat) : ℚ),
     (((220 : Int) : ℚ) - 1) / ((300 : Nat) : ℚ)]
    rfl rfl rfl rfl rfl rfl rfl rfl rfl

/-- Claim C8: `__getitem__` (both variants) leaves the construction-time
state — identifier list, path templates, configured transforms, and hence
the class vocabulary held by the configured target transform — unchanged,
and a call does not affect the result of any later call.  (Freshness of the
returned image/annotation objects is a memory-identity property with no
content in a pure embedding; what it guarantees — that `get` reads only
construction-time state — is exactly the state-preservation proved here.) -/
theorem getitem_preserves_state :
    (∀ (s : DataVoc.VOCDetection) (af : String → XmlNode)
        (imf : String → Nat × Nat) (i j : Nat),
        (s.getitemS af imf i).1 = s ∧
        (s.getitemS af imf i).1.ids = s.ids ∧
        (s.getitemS af imf i).1.annopath = s.annopath ∧
        (s.getitemS af imf i).1.imgpath = s.imgpath ∧
        (s.getitemS af imf i).1.imgsetpath = s.imgsetpath ∧
        ((s.getitemS af imf i).1.getitemS af imf j).2 =
          (s.getitemS af imf j).2) ∧
    (∀ (s : VocPy.VOCDetection) (af : String → XmlNode)
        (imf : String → Nat × Nat) (i j : Nat),
        (s.getitemS af imf i).1 = s ∧
        ((s.getitemS af imf i).1.getitemS af imf j).2 =
          (s.getitemS af imf j).2) :=
  ⟨fun _ _ _ _ _ => ⟨rfl, rfl, rfl, rfl, rfl, rfl⟩,
   fun _ _ _ _ _ => ⟨rfl, rfl⟩⟩

/-- An annotation object whose tags are deliberately scrambled: the child at
position 0 is not tagged "name" and the child at position 4 is not tagged
"bndbox", exhibiting the positional (not tag-based) access of `src/voc.py`. -/
def oddObj : XmlNode :=
  .mk "object" "" (xf
    [xleaf "klass" " Cat ", xleaf "x" "a", xleaf "difficult" "0",
     xleaf "y" "b", .mk "bb" "" (xf [xleaf "q" "3", xleaf "r" "4"])])

/-- Claim C9: the `src/voc.py` parser reads the class name from the object
child at position 0 and the box from the child at position 4 regardless of
their tags, ends each record with the lowercased trimmed name string, and
never consults the class-to-index mapping (two transforms differing only in
their mapping parse identically). -/
theorem vocpy_positional_name_records :
    (∀ (m₁ m₂ : List (String × Nat)) (kd : Bool) (t : XmlNode),
        (VocPy.AnnotationTransform.mk m₁ kd).call t =
          (VocPy.AnnotationTransform.mk m₂ kd).call t) ∧
    (∀ (kd : Bool) (res : List (List VocPy.Cell)) (o d c0 bbox : XmlNode)
        (di : Int) (bnd : List Int),
        o.find "difficult" = some d →
        pyToInt? d.txt = some di →
        (!kd && (di == 1)) = false →
        o.children.get? 0 = some c0 →
        o.children.get? 4 = some bbox →
        VocPy.bndLoop bbox.children = .ok bnd →
        VocPy.objStep kd res o =
          .ok (res ++ [bnd.map VocPy.Cell.num ++
            [VocPy.Cell.str (pyStrip (pyLower c0.txt))]])) := by
  constructor
  · intro m₁ m₂ kd t
    rfl
  · intro kd res o d c0 bbox di bnd hf hp hk h0 h4 hb
    simp [VocPy.objStep, hf, hp, hk, h0, h4, hb]

/-- Witness for C9 at the scrambled-tag object: the name is taken from the
position-0 child tagged "klass", the box from the position-4 child tagged
"bb". -/
theorem vocpy_positional_name_records_witness :
    (VocPy.AnnotationTransform.mk [] false).call oddObj =
      (VocPy.AnnotationTransform.mk VocPy.defaultClassToInd false).call
        oddObj ∧
    VocPy.objStep false [] oddObj =
      .ok ([] ++ [[2, 3].map VocPy.Cell.num ++
        [VocPy.Cell.str (pyStrip (pyLower " Cat "))]]) :=
  ⟨vocpy_positional_name_records.1 [] VocPy.defaultClassToInd false oddObj,
   vocpy_positional_name_records.2 false [] oddObj (xleaf "difficult" "0")
     (xleaf "klass" " Cat ")
     (XmlNode.mk "bb" "" (xf [xleaf "q" "3", xleaf "r" "4"])) 0 [2, 3]
     rfl rfl rfl rfl rfl rfl⟩

/-- Claim C10: in `data/voc.py`, `__getitem__` with no input transform but
with a target transform configured fails with the TypeError raised by
calling `img.size()` on the raw PIL image, whatever the target transform
is — so the failure happens before the target transform is applied. -/
theorem no_transform_size_typeerror (s : DataVoc.VOCDetection)
    (f : XmlNode → Nat → Nat → Nat → Except String (List (List ℚ)))
    (af : String → XmlNode) (imf : String → Nat × Nat)
    (i : Nat) (img_id : String)
    (ht : s.transform = none)
    (htt : s.target_transform = some f)
    (hi : s.ids.get? i = some img_id) :
    s.getitem af imf i =
      .error "TypeError: tuple object is not callable" := by
  rw [List.get?_eq_getElem?] at hi
  simp [DataVoc.VOCDetection.getitem, hi, ht, htt, imgSizeCall]

/-- The fixed annotation-file environment of the end-to-end scenario. -/
def catAnno : String → XmlNode := fun _ => catXml

/-- The fixed image environment: every JPEG is 500 × 375. -/
def catImgWH : String → Nat × Nat := fun _ => (500, 375)

/-- The `data/voc.py` dataset state of the C10 witness: no input transform, the
default annotation transform as target transform. -/
def noTfState : DataVoc.VOCDetection :=
  DataVoc.VOCDetection.init "VOCdevkit" "train" none
    (some (fun t c h w => (DataVoc.AnnotationTransform.init none false).call t c h w))
    "VOC2007" (fun _ => "000001\n")

/-- Witness for C10 at the concrete single-id dataset. -/
theorem no_transform_size_typeerror_witness :
    noTfState.getitem catAnno catImgWH 0 =
      .error "TypeError: tuple object is not callable" :=
  no_transform_size_typeerror noTfState
    (fun t c h w => (DataVoc.AnnotationTransform.init none false).call t c h w)
    catAnno catImgWH 0 "000001" rfl rfl rfl

/-- The `data/voc.py` dataset of the end-to-end scenario: single-id
manifest, an input transform producing a (3, 300, 200) tensor, and the
default annotation transform as target transform. -/
def dataE2EState : DataVoc.VOCDetection :=
  DataVoc.VOCDetection.init "VOCdevkit" "train"
    (some (fun _ => Tensor.mk [3, 300, 200] []))
    (some (fun t c h w => (DataVoc.AnnotationTransform.init none false).call t c h w))
    "VOC2007" (fun _ => "000001\n")

/-- The `src/voc.py` dataset of the end-to-end scenario: single-id manifest,
no input transform, the default annotation transform as target transform. -/
def vocE2EState : VocPy.VOCDetection :=
  VocPy.VOCDetection.init "VOCdevkit" "train" none
    (some (fun t => (VocPy.AnnotationTransform.init none false).call t))
    "VOC2007" (fun _ => "000001\n")

/-- Counterexample to C1 as stated: on the described dataset, `get(0)` does
not return the annotation list [[9, 19, 109, 219, i]] in either variant.
The `data/voc.py` variant returns the width/height-normalized coordinates
(9/200 differs from 9), and the `src/voc.py` variant ends its record with
the class-name string, which is no numeric index. -/
theorem end_to_end_counterexample :
    dataE2EState.getitem catAnno catImgWH 0 =
      .ok (.tens ⟨[3, 300, 200], []⟩,
        .parsed [[9/200, 19/300, 109/200, 219/300, 7]]) ∧
    (9 : ℚ)/200 ≠ 9 ∧
    vocE2EState.getitem catAnno catImgWH 0 =
      .ok (.pil 500 375,
        .parsed [[.num 9, .num 19, .num 109, .num 219, .str "cat"]]) ∧
    ∀ k : Int, VocPy.Cell.str "cat" ≠ VocPy.Cell.num k := by
  refine ⟨?_, by norm_num, rfl, fun k => by simp⟩
  rw [show dataE2EState.getitem catAnno catImgWH 0 =
      Except.ok (.tens ⟨[3, 300, 200], []⟩,
        .parsed [[(((10 : Int) : ℚ) - 1) / ((200 : Nat) : ℚ),
          (((20 : Int) : ℚ) - 1) / ((300 : Nat) : ℚ),
          (((110 : Int) : ℚ) - 1) / ((200 : Nat) : ℚ),
          (((220 : Int) : ℚ) - 1) / ((300 : Nat) : ℚ),
          ((7 : Nat) : ℚ)]]) from rfl]
  norm_num

/-- Claim C1 (amended): on the described dataset, `get(0)` returns the image
together with the annotation list [[9/W, 19/H, 109/W, 219/H, 7]] in the
`data/voc.py` variant (W = 200, H = 300 the transformed image's width and
height, 7 the index of "cat" in its 20-name vocabulary), and the image
together with [[9, 19, 109, 219, "cat"]] — the class-name string as final
element — in the `src/voc.py` variant. -/
theorem end_to_end_amended :
    dataE2EState.getitem catAnno catImgWH 0 =
      .ok (.tens ⟨[3, 300, 200], []⟩,
        .parsed [[9/200, 19/300, 109/200, 219/300, 7]]) ∧
    DataVoc.defaultClassToIndex.lookup "cat" = some 7 ∧
    vocE2EState.getitem catAnno catImgWH 0 =
      .ok (.pil 500 375,
        .parsed [[.num 9, .num 19, .num 109, .num 219, .str "cat"]]) := by
  refine ⟨?_, rfl, rfl⟩
  rw [show dataE2EState.getitem catAnno catImgWH 0 =
      Except.ok (.tens ⟨[3, 300, 200], []⟩,
        .parsed [[(((10 : Int) : ℚ) - 1) / ((200 : Nat) : ℚ),
          (((20 : Int) : ℚ) - 1) / ((300 : Nat) : ℚ),
          (((110 : Int) : ℚ) - 1) / ((200 : Nat) : ℚ),
          (((220 : Int) : ℚ) - 1) / ((300 : Nat) : ℚ),
          ((7 : Nat) : ℚ)]]) from rfl]
  norm_num

/-- Claim C6: a batch whose two (tensor) images have different shapes makes
`detection_collate` fail with the shape-mismatch stacking error; nothing is
padded, cropped or coerced. -/
theorem collate_shape_mismatch (t₁ t₂ : Tensor) (r₁ r₂ : List ℚ)
    (h : t₁.shape ≠ t₂.shape) :
    DataVoc.detection_collate
        [[.tens t₁, .annos [r₁]], [.tens t₂, .annos [r₂]]] =
      .error "stack expects each tensor to be equal size" := by
  have hb : t₂.shape ≠ t₁.shape := Ne.symm h
  simp [DataVoc.detection_collate, DataVoc.collateStep, torchStack,
    torchTensorOf, List.foldlM, Except.bind, Bind.bind, Pure.pure,
    Except.pure, hb]

/-- Witness for C6 with two concretely different image shapes. -/
theorem collate_shape_mismatch_witness :
    DataVoc.detection_collate
        [[.tens ⟨[3, 2, 2], []⟩, .annos [[1, 1, 2, 2, 0]]],
         [.tens ⟨[3, 4, 4], []⟩, .annos [[1, 1, 2, 2, 1]]]] =
      .error "stack expects each tensor to be equal size" :=
  collate_shape_mismatch ⟨[3, 2, 2], []⟩ ⟨[3, 4, 4], []⟩
    [1, 1, 2, 2, 0] [1, 1, 2, 2, 1] (by decide)

/-- Counterexample to C2 as stated: on a batch of 3 same-shape samples with
2, 0 and 5 annotation records, `detection_collate` does not return a pair at
all — stacking the empty record list of the middle sample fails. -/
theorem collate_zero_records_counterexample :
    DataVoc.detection_collate
        [[.tens ⟨[100, 100, 3], []⟩,
          .annos [[1, 1, 2, 2, 0], [3, 3, 4, 4, 1]]],
         [.tens ⟨[100, 100, 3], []⟩, .annos []],
         [.tens ⟨[100, 100, 3], []⟩,
          .annos [[1, 1, 2, 2, 0], [1, 1, 2, 2, 1], [1, 1, 2, 2, 2],
            [1, 1, 2, 2, 3], [1, 1, 2, 2, 4]]]] =
      .error "stack expects a non-empty TensorList" := rfl

/-- Claim C2 (amended): on a batch of 3 same-shape samples whose annotation
lists hold 2, 0 and 5 five-element records, `detection_collate` fails with
the empty-stack error at the zero-record sample instead of returning a
(0, 5)-shaped element; when every sample has at least one record — counts
2, 1 and 5 — it returns the image batch with a new leading axis of size 3
and stacked targets of shapes (2, 5), (1, 5) and (5, 5). -/
theorem collate_ragged_batch :
    (∀ (t₁ t₂ t₃ : Tensor) (r₁ r₂ r₄ r₅ r₆ r₇ r₈ : List ℚ),
        r₂.length = r₁.length →
        DataVoc.detection_collate
            [[.tens t₁, .annos [r₁, r₂]],
             [.tens t₂, .annos []],
             [.tens t₃, .annos [r₄, r₅, r₆, r₇, r₈]]] =
          .error "stack expects a non-empty TensorList") ∧
    (∀ (t₁ t₂ t₃ : Tensor) (r₁ r₂ r₃ r₄ r₅ r₆ r₇ r₈ : List ℚ),
        t₂.shape = t₁.shape → t₃.shape = t₁.shape →
        r₁.length = 5 → r₂.length = 5 → r₃.length = 5 → r₄.length = 5 →
        r₅.length = 5 → r₆.length = 5 → r₇.length = 5 → r₈.length = 5 →
        DataVoc.detection_collate
            [[.tens t₁, .annos [r₁, r₂]],
             [.tens t₂, .annos [r₃]],
             [.tens t₃, .annos [r₄, r₅, r₆, r₇, r₈]]] =
          .ok (⟨3 :: t₁.shape, t₁.data ++ (t₂.data ++ t₃.data)⟩,
            [⟨[2, 5], r₁ ++ r₂⟩, ⟨[1, 5], r₃⟩,
             ⟨[5, 5], r₄ ++ (r₅ ++ (r₆ ++ (r₇ ++ r₈)))⟩])) := by
  constructor
  · intro t₁ t₂ t₃ r₁ r₂ r₄ r₅ r₆ r₇ r₈ h
    simp [DataVoc.detection_collate, DataVoc.collateStep, torchStack,
      torchTensorOf, List.foldlM, Except.bind, Bind.bind, Pure.pure,
      Except.pure, h]
  · intro t₁ t₂ t₃ r₁ r₂ r₃ r₄ r₅ r₆ r₇ r₈ hs₂ hs₃ h₁ h₂ h₃ h₄ h₅ h₆ h₇ h₈
    simp [DataVoc.detection_collate, DataVoc.collateStep, torchStack,
      torchTensorOf, List.foldlM, Except.bind, Bind.bind, Pure.pure,
      Except.pure, hs₂, hs₃, h₁, h₂, h₃, h₄, h₅, h₆, h₇, h₈]

/-- Witness for C2's amended theorem at concrete batches. -/
theorem collate_ragged_batch_witness :
    DataVoc.detection_collate
        [[.tens ⟨[2, 2, 3], [1]⟩, .annos [[1, 2], [3, 4]]],
         [.tens ⟨[2, 2, 3], [2]⟩, .annos []],
         [.tens ⟨[2, 2, 3], [3]⟩, .annos [[5], [6], [7], [8], [9]]]] =
      .error "stack expects a non-empty TensorList" ∧
    DataVoc.detection_collate
        [[.tens ⟨[2, 2, 3], [1]⟩,
          .annos [[1, 1, 2, 2, 0], [3, 3, 4, 4, 1]]],
         [.tens ⟨[2, 2, 3], [2]⟩, .annos [[1, 1, 2, 2, 2]]],
         [.tens ⟨[2, 2, 3], [3]⟩,
          .annos [[1, 1, 2, 2, 0], [1, 1, 2, 2, 1], [1, 1, 2, 2, 2],
            [1, 1, 2, 2, 3], [1, 1, 2, 2, 4]]]] =
      .ok (⟨3 :: [2, 2, 3], [1] ++ ([2] ++ [3])⟩,
        [⟨[2, 5], [1, 1, 2, 2, 0] ++ [3, 3, 4, 4, 1]⟩,
         ⟨[1, 5], [1, 1, 2, 2, 2]⟩,
         ⟨[5, 5], [1, 1, 2, 2, 0] ++ ([1, 1, 2, 2, 1] ++ ([1, 1, 2, 2, 2] ++
           ([1, 1, 2, 2, 3] ++ [1, 1, 2, 2, 4])))⟩]) :=
  ⟨collate_ragged_batch.1 ⟨[2, 2, 3], [1]⟩ ⟨[2, 2, 3], [2]⟩ ⟨[2, 2, 3], [3]⟩
     [1, 2] [3, 4] [5] [6] [7] [8] [9] (by decide),
   collate_ragged_batch.2 ⟨[2, 2, 3], [1]⟩ ⟨[2, 2, 3], [2]⟩ ⟨[2, 2, 3], [3]⟩
     [1, 1, 2, 2, 0] [3, 3, 4, 4, 1] [1, 1, 2, 2, 2] [1, 1, 2, 2, 0]
     [1, 1, 2, 2, 1] [1, 1, 2, 2, 2] [1, 1, 2, 2, 3] [1, 1, 2, 2, 4]
     (by decide) (by decide) (by decide) (by decide) (by decide) (by decide)
     (by decide) (by decide) (by decide) (by decide)⟩

/-- With no transforms configured, a successful identifier lookup makes
`data/voc.py`'s `__getitem__` return the raw image and raw parsed tree. -/
theorem dataGetitem_none_none_ok (s : DataVoc.VOCDetection)
    (af : String → XmlNode) (imf : String → Nat × Nat) (i : Nat)
    (img_id : String) (ht : s.transform = none)
    (htt : s.target_transform = none)
    (hi : s.ids.get? i = some img_id) :
    s.getitem af imf i =
      .ok (.pil (imf (formatSub s.imgpath img_id)).1
          (imf (formatSub s.imgpath img_id)).2,
        .raw (af (formatSub s.annopath img_id))) := by
  rw [List.get?_eq_getElem?] at hi
  simp [DataVoc.VOCDetection.getitem, hi, ht, htt]

/-- Claim C7: for a manifest whose `readlines` yields K lines, the
constructed dataset has length K, the i-th identifier is the i-th line with
its newline characters stripped, and `get(i)` is defined (returns a value,
given total file-system environments) for every i < K. -/
theorem manifest_length_getitem (root image_set dataset_name : String)
    (readFile : String → String) (af : String → XmlNode)
    (imf : String → Nat × Nat) (i : Nat)
    (h : i < (readlines (readFile (formatSub (joinPath [root, dataset_name,
      "ImageSets", "Main", "%s.txt"]) image_set))).length) :
    (DataVoc.VOCDetection.init root image_set none none dataset_name
        readFile).len =
      (readlines (readFile (formatSub (joinPath [root, dataset_name,
        "ImageSets", "Main", "%s.txt"]) image_set))).length ∧
    (DataVoc.VOCDetection.init root image_set none none dataset_name
        readFile).ids.get? i =
      some (stripNewlines ((readlines (readFile (formatSub (joinPath [root,
        dataset_name, "ImageSets", "Main", "%s.txt"]) image_set))).get
          ⟨i, h⟩)) ∧
    ∃ out, (DataVoc.VOCDetection.init root image_set none none dataset_name
        readFile).getitem af imf i = .ok out := by
  refine ⟨?_, ?_, ?_⟩
  · simp [DataVoc.VOCDetection.init, DataVoc.VOCDetection.len]
  · simp [DataVoc.VOCDetection.init, List.get?_eq_getElem?,
      List.getElem?_map, List.getElem?_eq_getElem h]
  · have hid : (DataVoc.VOCDetection.init root image_set none none
        dataset_name readFile).ids.get? i =
        some (stripNewlines ((readlines (readFile (formatSub (joinPath [root,
          dataset_name, "ImageSets", "Main", "%s.txt"]) image_set))).get
            ⟨i, h⟩)) := by
      simp [DataVoc.VOCDetection.init, List.get?_eq_getElem?,
        List.getElem?_map, List.getElem?_eq_getElem h]
    exact ⟨_, dataGetitem_none_none_ok _ af imf i _ rfl rfl hid⟩

/-- Witness for C7 at a concrete two-line manifest. -/
theorem manifest_length_getitem_witness :
    (DataVoc.VOCDetection.init "VOCdevkit" "train" none none "VOC2007"
        (fun _ => "000001\n000005")).len = 2 ∧
    (DataVoc.VOCDetection.init "VOCdevkit" "train" none none "VOC2007"
        (fun _ => "000001\n000005")).ids.get? 1 = some "000005" ∧
    ∃ out, (DataVoc.VOCDetection.init "VOCdevkit" "train" none none "VOC2007"
        (fun _ => "000001\n000005")).getitem catAnno catImgWH 1 =
      .ok out := by
  have h := manifest_length_getitem "VOCdevkit" "train" "VOC2007"
    (fun _ => "000001\n000005") catAnno catImgWH 1 (by decide)
  exact ⟨h.1.trans (by decide), h.2.1.trans (by decide), h.2.2⟩
